import Mathlib

/-!
Verification of the GPU resource/state management core of the repository
(buffer synchronization tracking, GL state cache, shader uniform caching,
shader block packing, mesh growth, texture mipmap computation, and texture
view reference ownership), shallowly embedded from the C sources.
-/

set_option maxHeartbeats 1000000

/-! ## Synchronization tracker (`lovrBufferMap`, `state.sync`)

Embeds the access-mask bookkeeping of `lovrBufferMap`: a per-buffer
`uint32_t access` bitmask, and `state.sync[GPU_ACCESS_COUNT]`, one tracking
list of pointers to access masks per access category.  Masks are modelled as
`Nat` bitmasks (no arithmetic overflows the 32-bit width here), resources by
`Nat` identifiers, and the pointer lists by lists of resource identifiers
read through an `access : Nat → Nat` map (which also handles aliasing).

The access category bit indices come from `core/gpu.h`, which is not part of
the sources; they are kept as parameters in `AccessConfig` (four write
categories below `GPU_ACCESS_COUNT`). -/

namespace Sync

/-- Bit indices of the four write access categories used by `WRITE_MASK`
(`GPU_WRITE_COLOR_TARGET`, `GPU_WRITE_DEPTH_TARGET`,
`GPU_WRITE_COMPUTE_SHADER_STORAGE`, `GPU_WRITE_UPLOAD`) and the total
category count `GPU_ACCESS_COUNT`. -/
structure AccessConfig where
  count : Nat
  writeColor : Nat
  writeDepth : Nat
  writeStorage : Nat
  writeUpload : Nat
  upload_lt : writeUpload < count
deriving Repr

/-- The `WRITE_MASK` macro body, fully parenthesized:
`(1 << GPU_WRITE_COLOR_TARGET) | (1 << GPU_WRITE_DEPTH_TARGET) | (1 << GPU_WRITE_COMPUTE_SHADER_STORAGE) | (1 << GPU_WRITE_UPLOAD)`. -/
def WRITE_MASK (c : AccessConfig) : Nat :=
  (1 <<< c.writeColor) ||| (1 <<< c.writeDepth) ||| (1 <<< c.writeStorage) ||| (1 <<< c.writeUpload)

/-- The expression `x & WRITE_MASK` as the C preprocessor actually expands it:
`WRITE_MASK` is defined without outer parentheses, and `&` binds tighter than
`|`, so the use site parses as
`(x & (1 << c0)) | (1 << c1) | (1 << c2) | (1 << c3)`. -/
def andWriteMaskExpanded (c : AccessConfig) (x : Nat) : Nat :=
  (x &&& (1 <<< c.writeColor)) ||| (1 <<< c.writeDepth) ||| (1 <<< c.writeStorage) ||| (1 <<< c.writeUpload)

/-- Global synchronization state: each resource's pending access mask
(`buffer->access`) and the per-category tracking lists (`state.sync[i]`). -/
structure SyncState where
  access : Nat → Nat
  sync : Nat → List Nat

/-- `x &= ~(1 << i)` on a `uint32_t`: clear bit `i`. -/
def clearBit (x i : Nat) : Nat :=
  if x.testBit i then x ^^^ (1 <<< i) else x

/-- One iteration body of the barrier-coalescing loop for category `i`:
`for (j...) *state.sync[i].data[j] &= ~(1 << i); arr_clear(&state.sync[i]);` -/
def clearCategory (s : SyncState) (i : Nat) : SyncState where
  access := fun r => if r ∈ s.sync i then clearBit (s.access r) i else s.access r
  sync := fun j => if j = i then [] else s.sync j

/-- The loop `for (i = 0; i < GPU_ACCESS_COUNT; i++) if (before & (1 << i)) ...`
processing categories `0, 1, ..., n-1` in order. -/
def clearLoop (before : Nat) : Nat → SyncState → SyncState
  | 0, s => s
  | n + 1, s =>
    if before.testBit n then clearCategory (clearLoop before n s) n else clearLoop before n s

/-- The unconditional tail of `lovrBufferMap`:
`buffer->access |= after; arr_push(&state.sync[GPU_WRITE_UPLOAD], &buffer->access);` -/
def pushUploadAccess (c : AccessConfig) (s : SyncState) (b : Nat) : SyncState where
  access := fun r => if r = b then s.access b ||| (1 <<< c.writeUpload) else s.access r
  sync := fun j => if j = c.writeUpload then s.sync j ++ [b] else s.sync j

/-- `lovrBufferMap` without the final `gpu_buffer_map` call: the hazard check,
the conditional coalescing clear and barrier (the number of `gpu_sync` calls
is returned alongside the new state), then the access record and push. -/
def lovrBufferMap (c : AccessConfig) (s : SyncState) (b : Nat) : SyncState × Nat :=
  if s.access b ≠ 0 ∧
      (andWriteMaskExpanded c (s.access b) ≠ 0 ∨ andWriteMaskExpanded c (1 <<< c.writeUpload) ≠ 0) then
    (pushUploadAccess c (clearLoop (s.access b) c.count s) b, 1)
  else
    (pushUploadAccess c s b, 0)

/-- The spec's barrier rule, stated in its words: a barrier is needed before
adding access `after` to a resource whose pending accesses are `before` iff
there is a prior access and either side contains a write category. -/
def specNeedsBarrier (writes before after : Nat) : Bool :=
  decide (before ≠ 0) && (decide (before &&& writes ≠ 0) || decide (after &&& writes ≠ 0))

/-- A sample category layout (four read categories then the four write
categories of `WRITE_MASK`), used to evaluate the theorems on concrete
states. -/
def cfgEx : AccessConfig := ⟨8, 4, 5, 6, 7, by decide⟩

/-- A concrete sync state: resource `5` has a pending upload write (bit 7)
and sits on the upload tracking list. -/
def syncEx : SyncState :=
  ⟨fun r => if r = 5 then 1 <<< 7 else 0, fun j => if j = 7 then [5] else []⟩

/-- A concrete sync state with a second resource `6` whose pending access
(bit 2) shares no bit with resource `5`'s pending upload write. -/
def syncEx2 : SyncState :=
  ⟨fun r => if r = 5 then 1 <<< 7 else if r = 6 then 4 else 0,
   fun j => if j = 7 then [5] else if j = 2 then [6] else []⟩

theorem testBit_one_shiftLeft (i j : Nat) : (1 <<< i).testBit j = decide (i = j) := by
  rw [Nat.shiftLeft_eq, one_mul]
  by_cases h : i = j
  · subst h
    simp [Nat.testBit_two_pow_self]
  · simp [h, Nat.testBit_two_pow_of_ne h]

theorem ne_zero_of_testBit {x : Nat} {i : Nat} (h : x.testBit i = true) : x ≠ 0 := by
  intro hx
  rw [hx, Nat.zero_testBit] at h
  exact Bool.false_ne_true h

theorem WRITE_MASK_testBit_upload (c : AccessConfig) :
    (WRITE_MASK c).testBit c.writeUpload = true := by
  simp [WRITE_MASK, Nat.testBit_lor, testBit_one_shiftLeft]

theorem andWriteMaskExpanded_ne_zero (c : AccessConfig) (x : Nat) :
    andWriteMaskExpanded c x ≠ 0 := by
  apply ne_zero_of_testBit (i := c.writeUpload)
  simp [andWriteMaskExpanded, Nat.testBit_lor, testBit_one_shiftLeft]

theorem upload_and_WRITE_MASK_ne_zero (c : AccessConfig) :
    (1 <<< c.writeUpload) &&& WRITE_MASK c ≠ 0 := by
  apply ne_zero_of_testBit (i := c.writeUpload)
  simp [Nat.testBit_land, testBit_one_shiftLeft, WRITE_MASK_testBit_upload]

/-- The barrier count of `lovrBufferMap` is decided purely by whether the
buffer has pending access. -/
theorem lovrBufferMap_snd (c : AccessConfig) (s : SyncState) (b : Nat) :
    (lovrBufferMap c s b).2 = if s.access b ≠ 0 then 1 else 0 := by
  unfold lovrBufferMap
  by_cases h : s.access b ≠ 0
  · rw [if_pos ⟨h, Or.inr (andWriteMaskExpanded_ne_zero c _)⟩, if_pos h]
  · rw [if_neg (fun hc => h hc.1), if_neg h]

theorem clearBit_testBit (x i j : Nat) :
    (clearBit x i).testBit j = if j = i then false else x.testBit j := by
  unfold clearBit
  by_cases hx : x.testBit i
  · rw [if_pos hx, Nat.testBit_xor, testBit_one_shiftLeft]
    by_cases hj : j = i
    · subst hj
      simp [hx]
    · have : (decide (i = j)) = false := decide_eq_false (fun h => hj h.symm)
      simp [this, hj]
  · rw [if_neg hx]
    by_cases hj : j = i
    · subst hj
      simp [Bool.eq_false_iff.mpr hx]
    · simp [hj]

/-- Tracking lists after the coalescing loop: every list of a category `< n`
whose bit is set in `before` is emptied; all other lists are unchanged. -/
theorem clearLoop_sync (before : Nat) (s : SyncState) (j : Nat) :
    ∀ n, (clearLoop before n s).sync j =
      if j < n ∧ before.testBit j = true then [] else s.sync j := by
  intro n
  induction n with
  | zero => simp [clearLoop]
  | succ n ih =>
    unfold clearLoop
    by_cases hbn : before.testBit n = true
    · rw [if_pos hbn]
      show (clearCategory (clearLoop before n s) n).sync j = _
      unfold clearCategory
      by_cases hj : j = n
      · subst hj
        simp [Nat.lt_succ_self, hbn]
      · simp only [hj, if_false, ih]
        have hiff : (j < n ∧ before.testBit j = true) ↔ (j < n + 1 ∧ before.testBit j = true) :=
          ⟨fun ⟨h1, h2⟩ => ⟨Nat.lt_succ_of_lt h1, h2⟩,
           fun ⟨h1, h2⟩ => ⟨Nat.lt_of_le_of_ne (Nat.lt_succ_iff.mp h1) hj, h2⟩⟩
        by_cases hc : j < n ∧ before.testBit j = true
        · rw [if_pos hc, if_pos (hiff.mp hc)]
        · rw [if_neg hc, if_neg (fun hc' => hc (hiff.mpr hc'))]
    · rw [if_neg hbn, ih]
      have hiff : (j < n ∧ before.testBit j = true) ↔ (j < n + 1 ∧ before.testBit j = true) := by
        constructor
        · rintro ⟨h1, h2⟩
          exact ⟨Nat.lt_succ_of_lt h1, h2⟩
        · rintro ⟨h1, h2⟩
          rcases Nat.lt_succ_iff_lt_or_eq.mp h1 with h | rfl
          · exact ⟨h, h2⟩
          · exact absurd h2 hbn
      by_cases hc : j < n ∧ before.testBit j = true
      · rw [if_pos hc, if_pos (hiff.mp hc)]
      · rw [if_neg hc, if_neg (fun hc' => hc (hiff.mpr hc'))]

/-- The loop never sets an access bit. -/
theorem clearLoop_access_le (before : Nat) (s : SyncState) (r j : Nat) :
    ∀ n, ((clearLoop before n s).access r).testBit j = true →
      (s.access r).testBit j = true := by
  intro n
  induction n with
  | zero => exact fun h => h
  | succ n ih =>
    intro h
    unfold clearLoop at h
    by_cases hbn : before.testBit n = true
    · rw [if_pos hbn] at h
      have h' : ((clearCategory (clearLoop before n s) n).access r).testBit j = true := h
      unfold clearCategory at h'
      simp only at h'
      by_cases hm : r ∈ (clearLoop before n s).sync n
      · rw [if_pos hm, clearBit_testBit] at h'
        by_cases hjn : j = n
        · rw [if_pos hjn] at h'
          exact absurd h' (by simp)
        · rw [if_neg hjn] at h'
          exact ih h'
      · rw [if_neg hm] at h'
        exact ih h'
    · rw [if_neg hbn] at h
      exact ih h

/-- A category processed by the loop has its bit cleared in every resource
that was on its tracking list. -/
theorem clearLoop_access_cleared (before : Nat) (s : SyncState) (i r : Nat)
    (hb : before.testBit i = true) (hr : r ∈ s.sync i) :
    ∀ n, i < n → ((clearLoop before n s).access r).testBit i = false := by
  intro n
  induction n with
  | zero => exact fun h => absurd h (Nat.not_lt_zero i)
  | succ n ih =>
    intro hi
    unfold clearLoop
    by_cases hbn : before.testBit n = true
    · rw [if_pos hbn]
      show ((clearCategory (clearLoop before n s) n).access r).testBit i = false
      unfold clearCategory
      simp only
      rcases Nat.lt_succ_iff_lt_or_eq.mp hi with hlt | rfl
      · by_cases hm : r ∈ (clearLoop before n s).sync n
        · rw [if_pos hm, clearBit_testBit]
          by_cases hin : i = n
          · rw [if_pos hin]
          · rw [if_neg hin]
            exact ih hlt
        · rw [if_neg hm]
          exact ih hlt
      · have hsync : (clearLoop before i s).sync i = s.sync i := by
          rw [clearLoop_sync]
          simp
        rw [hsync, if_pos hr, clearBit_testBit, if_pos rfl]
    · rw [if_neg hbn]
      rcases Nat.lt_succ_iff_lt_or_eq.mp hi with hlt | rfl
      · exact ih hlt
      · exact absurd hb hbn

/-- A resource on none of the processed tracking lists keeps its mask. -/
theorem clearLoop_access_untouched (before : Nat) (s : SyncState) (r : Nat) :
    ∀ n, (∀ i, i < n → before.testBit i = true → r ∉ s.sync i) →
      (clearLoop before n s).access r = s.access r := by
  intro n
  induction n with
  | zero => exact fun _ => rfl
  | succ n ih =>
    intro h
    unfold clearLoop
    have ihr := ih (fun i hi hb => h i (Nat.lt_succ_of_lt hi) hb)
    by_cases hbn : before.testBit n = true
    · rw [if_pos hbn]
      show (clearCategory (clearLoop before n s) n).access r = s.access r
      unfold clearCategory
      simp only
      have hsync : (clearLoop before n s).sync n = s.sync n := by
        rw [clearLoop_sync]
        simp
      rw [hsync, if_neg (h n (Nat.lt_succ_self n) hbn)]
      exact ihr
    · rw [if_neg hbn]
      exact ihr

/-- C1: a buffer map issues no `gpu_sync` barrier when the buffer has no
pending access; it issues exactly one barrier when there is a pending access
and the prior set or the new upload write contains a write category; its
barrier count agrees with the spec's barrier rule at the upload-write access;
and the spec's rule issues no barrier for a read-only access after read-only
pending accesses. -/
theorem lovrBufferMap_barrier_policy (c : AccessConfig) (s : SyncState) (b : Nat) :
    (s.access b = 0 → (lovrBufferMap c s b).2 = 0) ∧
    (s.access b ≠ 0 →
      (s.access b &&& WRITE_MASK c ≠ 0 ∨ (1 <<< c.writeUpload) &&& WRITE_MASK c ≠ 0) →
      (lovrBufferMap c s b).2 = 1) ∧
    ((lovrBufferMap c s b).2 =
      if specNeedsBarrier (WRITE_MASK c) (s.access b) (1 <<< c.writeUpload) = true then 1 else 0) ∧
    (∀ before after, before &&& WRITE_MASK c = 0 → after &&& WRITE_MASK c = 0 →
      specNeedsBarrier (WRITE_MASK c) before after = false) := by
  refine ⟨?_, ?_, ?_, ?_⟩
  · intro h
    rw [lovrBufferMap_snd]
    simp [h]
  · intro h _
    rw [lovrBufferMap_snd, if_pos h]
  · rw [lovrBufferMap_snd]
    by_cases h : s.access b ≠ 0
    · rw [if_pos h, if_pos]
      simp [specNeedsBarrier, h, upload_and_WRITE_MASK_ne_zero c]
    · have h0 : s.access b = 0 := not_ne_iff.mp h
      rw [if_neg h]
      simp [specNeedsBarrier, h0]
  · intro before after h1 h2
    simp [specNeedsBarrier, h1, h2]

/-- Witness for C1 at a concrete state: resource `5` has a pending upload
write, so mapping it issues exactly one barrier. -/
theorem lovrBufferMap_barrier_policy_witness :
    syncEx.access 5 ≠ 0 ∧ (lovrBufferMap cfgEx syncEx 5).2 = 1 :=
  ⟨by decide,
   (lovrBufferMap_barrier_policy cfgEx syncEx 5).2.1 (by decide)
     (Or.inr (upload_and_WRITE_MASK_ne_zero cfgEx))⟩

/-- C2: when a barrier fires for prior access set `B`, the coalescing loop
clears, for every category bit set in `B`, that category's pending bit in
every resource on its tracking list and empties those lists, while every
resource whose pending mask shares no bit with `B` keeps its mask unchanged
(given the tracking invariant that listed resources have the listed bit
set). -/
theorem barrier_clear_coalescing (c : AccessConfig) (s : SyncState) (B : Nat)
    (hinv : ∀ i r, r ∈ s.sync i → (s.access r).testBit i = true) :
    (∀ i, i < c.count → B.testBit i = true →
      (∀ r, r ∈ s.sync i → ((clearLoop B c.count s).access r).testBit i = false) ∧
      (clearLoop B c.count s).sync i = []) ∧
    (∀ r, s.access r &&& B = 0 → (clearLoop B c.count s).access r = s.access r) := by
  constructor
  · intro i hi hb
    refine ⟨fun r hr => clearLoop_access_cleared B s i r hb hr c.count hi, ?_⟩
    rw [clearLoop_sync]
    simp [hi, hb]
  · intro r hzero
    apply clearLoop_access_untouched
    intro i hi hb hr
    have h1 := hinv i r hr
    have h2 : (s.access r &&& B).testBit i = true := by
      rw [Nat.testBit_land, h1, hb]
      rfl
    rw [hzero, Nat.zero_testBit] at h2
    exact Bool.false_ne_true h2

/-- Witness for C2 on a concrete state: a barrier for `B = 2^7` empties the
upload list, clears resource `5`'s bit 7, and leaves resource `6` (bit 2,
disjoint from `B`) untouched. -/
theorem barrier_clear_coalescing_witness :
    ((clearLoop (1 <<< 7) cfgEx.count syncEx2).access 6 = syncEx2.access 6) ∧
    ((clearLoop (1 <<< 7) cfgEx.count syncEx2).sync 7 = []) ∧
    (((clearLoop (1 <<< 7) cfgEx.count syncEx2).access 5).testBit 7 = false) := by
  have hinv : ∀ i r, r ∈ syncEx2.sync i → (syncEx2.access r).testBit i = true := by
    intro i r hr
    by_cases h7 : i = 7
    · subst h7
      simp [syncEx2] at hr
      subst hr
      decide
    · by_cases h2 : i = 2
      · subst h2
        simp [syncEx2] at hr
        subst hr
        decide
      · simp [syncEx2, h7, h2] at hr
  have h := barrier_clear_coalescing cfgEx syncEx2 (1 <<< 7) hinv
  exact ⟨h.2 6 (by decide),
         (h.1 7 (by decide) (by decide)).2,
         (h.1 7 (by decide) (by decide)).1 5 (by decide)⟩

end Sync

/-! ## Shader uniform cache (`lovrShaderSetUniform`, `lovrShaderBind`)

Embeds the client-side uniform cache of the GL backend.  A `Uniform` holds
the introspected type, element count, component count, byte capacity
(`uniform->size`), dirty flag and cached value bytes; a shader's uniform
table is an association list keyed by name (`map_get`/in-place mutation
become lookup/pointwise update).  `lovrAssert` failures abort the operation,
modelled as error results that leave the table unchanged.  Value bytes are
`List Nat` (one entry per byte); `memcmp`/`memcpy` over the first
`count * size` bytes become `List.take`/append-with-drop. -/

namespace GLShader

/-- `UniformType` from the GL backend. -/
inductive UniformType
  | float
  | int
  | matrix
  | sampler
deriving DecidableEq, Repr

/-- One entry of `shader->uniforms`. -/
structure Uniform where
  type : UniformType
  count : Nat
  components : Nat
  size : Nat
  dirty : Bool
  value : List Nat
deriving DecidableEq, Repr

/-- Outcome of a `lovrShaderSetUniform` call.  `noUniform` is the silent
early return for an unknown name; `typeMismatch` and `countOverflow` are the
two `lovrAssert` configuration errors; `skipped` is the redundant-set early
return; `stored` is the mutating path. -/
inductive SetResult
  | noUniform
  | typeMismatch
  | countOverflow
  | skipped
  | stored
deriving DecidableEq, Repr

/-- `map_get(&shader->uniforms, name)`. -/
def getU : List (String × Uniform) → String → Option Uniform
  | [], _ => none
  | (k, u) :: rest, name => if k = name then some u else getU rest name

/-- In-place mutation of the uniform found under `name`. -/
def updU : List (String × Uniform) → String → Uniform → List (String × Uniform)
  | [], _, _ => []
  | (k, u) :: rest, name, v =>
    if k = name then (k, v) :: rest else (k, u) :: updU rest name v

/-- `lovrShaderSetUniform`: look the uniform up (silent return if absent),
assert the type matches and `count * size <= uniform->size`, skip when the
uniform is clean and the first `count * size` cached bytes equal the new
bytes, otherwise copy the bytes in and mark the uniform dirty. -/
def lovrShaderSetUniform (l : List (String × Uniform)) (name : String)
    (type : UniformType) (data : List Nat) (count size : Nat) :
    List (String × Uniform) × SetResult :=
  match getU l name with
  | none => (l, .noUniform)
  | some u =>
    if u.type ≠ type then (l, .typeMismatch)
    else if u.size < count * size then (l, .countOverflow)
    else if u.dirty = false ∧ u.value.take (count * size) = data then (l, .skipped)
    else (updU l name { u with value := data ++ u.value.drop (count * size), dirty := true },
          .stored)

/-- Upload calls `lovrShaderBind` issues for one uniform: samplers are always
re-bound (one `lovrGpuBindTexture` per element); any other uniform is
uploaded (one `glUniform*` call) only when dirty. -/
def uniformFlushCalls (u : Uniform) : Nat :=
  if u.type = .sampler then u.count else if u.dirty = true then 1 else 0

/-- `lovrShaderBind`'s uniform loop: flush every dirty (or sampler) uniform,
clearing dirty flags, and return the table plus the number of upload calls. -/
def lovrShaderBind : List (String × Uniform) → List (String × Uniform) × Nat
  | [] => ([], 0)
  | (k, u) :: rest =>
    ((k, { u with dirty := false }) :: (lovrShaderBind rest).1,
     uniformFlushCalls u + (lovrShaderBind rest).2)

/-- A clean `float` uniform `x` of count 1 (capacity 4 bytes), cached at 0. -/
def uEx : Uniform := ⟨.float, 1, 1, 4, false, [0, 0, 0, 0]⟩

/-- A clean `float` uniform whose cached bytes are already `bytes1`. -/
def uEx2 : Uniform := ⟨.float, 1, 1, 4, false, [0, 0, 128, 63]⟩

/-- A one-uniform shader table. -/
def shEx : List (String × Uniform) := [("x", uEx)]

/-- A shader table whose uniform `x` already caches `bytes1`. -/
def shEx2 : List (String × Uniform) := [("x", uEx2)]

/-- The four bytes of the float `1.0f`. -/
def bytes1 : List Nat := [0, 0, 128, 63]

theorem getU_updU_self (name : String) (v : Uniform) :
    ∀ l u, getU l name = some u → getU (updU l name v) name = some v := by
  intro l
  induction l with
  | nil =>
    intro u h
    simp [getU] at h
  | cons p rest ih =>
    intro u h
    obtain ⟨k, w⟩ := p
    by_cases hk : k = name
    · simp [getU, updU, hk]
    · have h' : getU rest name = some u := by
        simpa [getU, hk] using h
      have hstep : getU (updU ((k, w) :: rest) name v) name = getU (updU rest name v) name := by
        simp [updU, getU, hk]
      rw [hstep]
      exact ih u h'

theorem updU_self (name : String) :
    ∀ l u, getU l name = some u → updU l name u = l := by
  intro l
  induction l with
  | nil =>
    intro u h
    simp [getU] at h
  | cons p rest ih =>
    intro u h
    obtain ⟨k, w⟩ := p
    by_cases hk : k = name
    · simp only [getU, if_pos hk, Option.some.injEq] at h
      simp [updU, hk, h]
    · simp only [getU, if_neg hk] at h
      simp [updU, hk, ih u h]

/-- Unfolding equation of `lovrShaderSetUniform` when the name is present. -/
theorem setU_some (l : List (String × Uniform)) (name : String) (type : UniformType)
    (data : List Nat) (count size : Nat) (u : Uniform) (hu : getU l name = some u) :
    lovrShaderSetUniform l name type data count size =
      if u.type ≠ type then (l, .typeMismatch)
      else if u.size < count * size then (l, .countOverflow)
      else if u.dirty = false ∧ u.value.take (count * size) = data then (l, .skipped)
      else (updU l name { u with value := data ++ u.value.drop (count * size), dirty := true },
            .stored) := by
  unfold lovrShaderSetUniform
  rw [hu]

/-- Unfolding equation of `lovrShaderSetUniform` when the name is absent. -/
theorem setU_none (l : List (String × Uniform)) (name : String) (type : UniformType)
    (data : List Nat) (count size : Nat) (hu : getU l name = none) :
    lovrShaderSetUniform l name type data count size = (l, .noUniform) := by
  unfold lovrShaderSetUniform
  rw [hu]

/-- C4: a set call whose element count exceeds the uniform's capacity fails
with the configuration error and leaves the table (cached bytes and dirty
flags) unchanged; a fitting set call stores the bytes, so reading the cached
value back afterwards returns them. -/
theorem lovrShaderSetUniform_capacity (l : List (String × Uniform)) (name : String)
    (type : UniformType) (data : List Nat) (count size : Nat) (u : Uniform)
    (hu : getU l name = some u) (ht : u.type = type) :
    (u.size < count * size →
      lovrShaderSetUniform l name type data count size = (l, .countOverflow)) ∧
    (count * size ≤ u.size → data.length = count * size →
      ∃ u', getU (lovrShaderSetUniform l name type data count size).1 name = some u' ∧
        u'.value.take (count * size) = data) := by
  constructor
  · intro hover
    rw [setU_some l name type data count size u hu,
      if_neg (by simp [ht]), if_pos hover]
  · intro hfit hlen
    rw [setU_some l name type data count size u hu,
      if_neg (by simp [ht]), if_neg (Nat.not_lt.mpr hfit)]
    by_cases hskip : u.dirty = false ∧ u.value.take (count * size) = data
    · rw [if_pos hskip]
      exact ⟨u, hu, hskip.2⟩
    · rw [if_neg hskip]
      refine ⟨_, getU_updU_self name _ l u hu, ?_⟩
      show (data ++ u.value.drop (count * size)).take (count * size) = data
      rw [← hlen, List.take_left]

/-- Witness for C4: on the concrete table, a count-2 float set overflows the
capacity and is rejected without mutation, while a fitting set caches the
four bytes of `1.0f`. -/
theorem lovrShaderSetUniform_capacity_witness :
    (lovrShaderSetUniform shEx "x" .float bytes1 2 4 = (shEx, .countOverflow)) ∧
    (∃ u', getU (lovrShaderSetUniform shEx "x" .float bytes1 1 4).1 "x" = some u' ∧
      u'.value.take 4 = bytes1) :=
  ⟨(lovrShaderSetUniform_capacity shEx "x" .float bytes1 2 4 uEx (by decide) (by decide)).1
     (by decide),
   (lovrShaderSetUniform_capacity shEx "x" .float bytes1 1 4 uEx (by decide) (by decide)).2
     (by decide) (by decide)⟩

/-- C5: a set call on a clean uniform whose new bytes equal the cached bytes
is a no-op (table unchanged, result `skipped`); a clean non-sampler uniform
costs zero upload calls at the next flush; and repeating a fitting set call
with the same bytes leaves the table exactly where the first call put it
(zero dirty-flag transitions and zero extra flush uploads for the second
call). -/
theorem lovrShaderSetUniform_redundant (l : List (String × Uniform)) (name : String)
    (type : UniformType) (data : List Nat) (count size : Nat) (u : Uniform)
    (hu : getU l name = some u) (ht : u.type = type) (hfit : count * size ≤ u.size)
    (hlen : data.length = count * size) :
    (u.dirty = false → u.value.take (count * size) = data →
      lovrShaderSetUniform l name type data count size = (l, .skipped)) ∧
    (∀ w : Uniform, w.dirty = false → w.type ≠ .sampler → uniformFlushCalls w = 0) ∧
    ((lovrShaderSetUniform (lovrShaderSetUniform l name type data count size).1
        name type data count size).1 =
      (lovrShaderSetUniform l name type data count size).1) := by
  refine ⟨?_, ?_, ?_⟩
  · intro hclean heq
    rw [setU_some l name type data count size u hu,
      if_neg (by simp [ht]), if_neg (Nat.not_lt.mpr hfit), if_pos ⟨hclean, heq⟩]
  · intro w hclean hsamp
    unfold uniformFlushCalls
    rw [if_neg hsamp, if_neg (by rw [hclean]; exact Bool.false_ne_true)]
  · by_cases hskip : u.dirty = false ∧ u.value.take (count * size) = data
    · have h1 : lovrShaderSetUniform l name type data count size = (l, .skipped) := by
        rw [setU_some l name type data count size u hu,
          if_neg (by simp [ht]), if_neg (Nat.not_lt.mpr hfit), if_pos hskip]
      rw [h1]
      show (lovrShaderSetUniform l name type data count size).1 = l
      rw [h1]
    · have hdrop : (data ++ u.value.drop (count * size)).drop (count * size) =
          u.value.drop (count * size) := by
        rw [← hlen, List.drop_left]
      have h1 : lovrShaderSetUniform l name type data count size =
          (updU l name { u with value := data ++ u.value.drop (count * size), dirty := true },
           .stored) := by
        rw [setU_some l name type data count size u hu,
          if_neg (by simp [ht]), if_neg (Nat.not_lt.mpr hfit), if_neg hskip]
      have hget : getU (updU l name
          { u with value := data ++ u.value.drop (count * size), dirty := true }) name =
          some { u with value := data ++ u.value.drop (count * size), dirty := true } :=
        getU_updU_self name _ l u hu
      simp only [h1]
      rw [setU_some _ name type data count size _ hget,
        if_neg (by simp [ht]), if_neg (by simp [Nat.not_lt.mpr hfit]), if_neg (by simp)]
      simp only [hdrop]
      exact updU_self name _ _ hget

/-- Witness for C5: on a table whose float uniform already caches `1.0f`
clean, a redundant set is skipped; and a double set of `1.0f` on the
all-zero table changes nothing the second time. -/
theorem lovrShaderSetUniform_redundant_witness :
    (lovrShaderSetUniform shEx2 "x" .float bytes1 1 4 = (shEx2, .skipped)) ∧
    ((lovrShaderSetUniform (lovrShaderSetUniform shEx "x" .float bytes1 1 4).1
        "x" .float bytes1 1 4).1 =
      (lovrShaderSetUniform shEx "x" .float bytes1 1 4).1) :=
  ⟨(lovrShaderSetUniform_redundant shEx2 "x" .float bytes1 1 4 uEx2 (by decide) (by decide)
      (by decide) (by decide)).1 (by decide) (by decide),
   (lovrShaderSetUniform_redundant shEx "x" .float bytes1 1 4 uEx (by decide) (by decide)
      (by decide) (by decide)).2.2⟩

/-- C10: a set call naming a uniform absent from the table returns silently
with the table unchanged, whereas a type mismatch or an over-capacity count
on an existing uniform aborts with the corresponding configuration error. -/
theorem lovrShaderSetUniform_missing_name (l : List (String × Uniform)) (name : String)
    (type : UniformType) (data : List Nat) (count size : Nat) :
    (getU l name = none →
      lovrShaderSetUniform l name type data count size = (l, .noUniform)) ∧
    (∀ u, getU l name = some u → u.type ≠ type →
      lovrShaderSetUniform l name type data count size = (l, .typeMismatch)) ∧
    (∀ u, getU l name = some u → u.type = type → u.size < count * size →
      lovrShaderSetUniform l name type data count size = (l, .countOverflow)) := by
  refine ⟨?_, ?_, ?_⟩
  · intro h
    exact setU_none l name type data count size h
  · intro u h hne
    rw [setU_some l name type data count size u h, if_pos hne]
  · intro u h ht hover
    rw [setU_some l name type data count size u h, if_neg (by simp [ht]), if_pos hover]

/-- Witness for C10: setting the unknown uniform `y` is a silent no-op, a
matrix set on the float `x` is a type error, and an oversized float set on
`x` is a capacity error. -/
theorem lovrShaderSetUniform_missing_name_witness :
    (lovrShaderSetUniform shEx "y" .float bytes1 1 4 = (shEx, .noUniform)) ∧
    (lovrShaderSetUniform shEx "x" .matrix bytes1 1 4 = (shEx, .typeMismatch)) ∧
    (lovrShaderSetUniform shEx "x" .float bytes1 4 4 = (shEx, .countOverflow)) :=
  ⟨(lovrShaderSetUniform_missing_name shEx "y" .float bytes1 1 4).1 (by decide),
   (lovrShaderSetUniform_missing_name shEx "x" .matrix bytes1 1 4).2.1 uEx (by decide)
     (by decide),
   (lovrShaderSetUniform_missing_name shEx "x" .float bytes1 4 4).2.2 uEx (by decide)
     (by decide) (by decide)⟩

end GLShader

/-! ## GL state cache (`lovrGpuBind*`, `lovrGpuUseProgram`, `lovrGpuDraw` toggles)

Embeds the process-wide `state` cache of the GL backend and its guarded
setters.  Every setter compares the requested value against the cached one
and issues the underlying state-change operation only on a change; `apply`
returns the new cache plus the number of state-change operations issued
(a changed setting issues its GL call group once, counted as one issuance;
e.g. a blend change issues `glBlendEquation` + `glBlendFuncSeparate`
together).  The `float viewport[4]` compared by `memcmp` is modelled as four
integer bit patterns, since only bitwise equality is consulted. -/

namespace GpuCache

/-- `BlendMode` from the pipeline descriptor. -/
inductive BlendMode
  | alpha
  | add
  | subtract
  | multiply
  | lighten
  | darken
  | screen
  | replace
deriving DecidableEq, Repr

/-- `BlendAlphaMode`. -/
inductive BlendAlphaMode
  | alphaMultiply
  | premultiplied
deriving DecidableEq, Repr

/-- `CompareMode`; `compareNone` is `COMPARE_NONE`. -/
inductive CompareMode
  | compareNone
  | equal
  | nequal
  | less
  | lequal
  | greater
  | gequal
deriving DecidableEq, Repr

/-- `Winding`. -/
inductive Winding
  | clockwise
  | counterclockwise
deriving DecidableEq, Repr

/-- The cached fields of the GL backend's `state` consulted by the guarded
setters, plus the `shaderSwitches` diagnostic counter.  `stencilMode` is an
`Option` because `lovrGraphicsStencil` stores the out-of-range dirty
sentinel `~0` into it, which equals no real compare mode (`none`). -/
structure GpuState where
  program : Nat
  framebuffer : Nat
  indexBuffer : Nat
  vertexBuffer : Nat
  vertexArray : Nat
  uniformBuffers : Nat → Nat
  viewport : List Int
  blendMode : BlendMode
  blendAlphaMode : BlendAlphaMode
  culling : Bool
  depthEnabled : Bool
  depthTest : CompareMode
  depthWrite : Bool
  lineWidth : Int
  stencilEnabled : Bool
  stencilMode : Option CompareMode
  stencilValue : Int
  stencilWriting : Bool
  winding : Winding
  wireframe : Bool
  shaderSwitches : Nat

/-- One state-cache update request: the named bind/use/set entry points and
the pipeline toggles diffed by `lovrGpuDraw`. -/
inductive Update
  | useProgram (p : Nat)
  | bindFramebuffer (f : Nat)
  | bindIndexBuffer (b : Nat)
  | bindVertexBuffer (b : Nat)
  | bindVertexArray (a : Nat)
  | bindUniformBuffer (b : Nat) (slot : Nat)
  | setViewport (v : List Int)
  | setBlend (bm : BlendMode) (bam : BlendAlphaMode)
  | setCulling (c : Bool)
  | setDepthTest (d : CompareMode)
  | setDepthWrite (w : Bool)
  | setLineWidth (w : Int)
  | setStencil (m : CompareMode) (v : Int)
  | setWinding (w : Winding)
  | setWireframe (w : Bool)

/-- The cached settings, one key per independently cached value. -/
inductive Key
  | program
  | framebuffer
  | indexBuffer
  | vertexBuffer
  | vertexArray
  | uniformBuffer (slot : Nat)
  | viewport
  | blend
  | culling
  | depthTest
  | depthWrite
  | lineWidth
  | stencil
  | winding
  | wireframe
deriving DecidableEq, Repr

/-- Values cached under the keys. -/
inductive Uval
  | n (x : Nat)
  | i (x : Int)
  | b (x : Bool)
  | vp (v : List Int)
  | bl (bm : BlendMode) (bam : BlendAlphaMode)
  | cmp (c : CompareMode)
  | wind (w : Winding)
  | st (m : Option CompareMode) (v : Int)
deriving DecidableEq, Repr

/-- The key an update targets. -/
def Update.key : Update → Key
  | .useProgram _ => .program
  | .bindFramebuffer _ => .framebuffer
  | .bindIndexBuffer _ => .indexBuffer
  | .bindVertexBuffer _ => .vertexBuffer
  | .bindVertexArray _ => .vertexArray
  | .bindUniformBuffer _ slot => .uniformBuffer slot
  | .setViewport _ => .viewport
  | .setBlend _ _ => .blend
  | .setCulling _ => .culling
  | .setDepthTest _ => .depthTest
  | .setDepthWrite _ => .depthWrite
  | .setLineWidth _ => .lineWidth
  | .setStencil _ _ => .stencil
  | .setWinding _ => .winding
  | .setWireframe _ => .wireframe

/-- The value an update requests. -/
def Update.val : Update → Uval
  | .useProgram p => .n p
  | .bindFramebuffer f => .n f
  | .bindIndexBuffer b => .n b
  | .bindVertexBuffer b => .n b
  | .bindVertexArray a => .n a
  | .bindUniformBuffer b _ => .n b
  | .setViewport v => .vp v
  | .setBlend bm bam => .bl bm bam
  | .setCulling c => .b c
  | .setDepthTest d => .cmp d
  | .setDepthWrite w => .b w
  | .setLineWidth w => .i w
  | .setStencil m v => .st (some m) v
  | .setWinding w => .wind w
  | .setWireframe w => .b w

/-- The cached value under a key. -/
def GpuState.read (s : GpuState) : Key → Uval
  | .program => .n s.program
  | .framebuffer => .n s.framebuffer
  | .indexBuffer => .n s.indexBuffer
  | .vertexBuffer => .n s.vertexBuffer
  | .vertexArray => .n s.vertexArray
  | .uniformBuffer slot => .n (s.uniformBuffers slot)
  | .viewport => .vp s.viewport
  | .blend => .bl s.blendMode s.blendAlphaMode
  | .culling => .b s.culling
  | .depthTest => .cmp s.depthTest
  | .depthWrite => .b s.depthWrite
  | .lineWidth => .i s.lineWidth
  | .stencil => .st s.stencilMode s.stencilValue
  | .winding => .wind s.winding
  | .wireframe => .b s.wireframe

/-- One guarded update against the cache, returning the new cache and the
number of underlying state-change operations issued.  Each branch transcribes
the corresponding C guard (`lovrGpuUseProgram`, `lovrGpuBindFramebuffer`,
`lovrGpuBindIndexBuffer`, `lovrGpuBindVertexBuffer`, `lovrGpuBindVertexArray`,
`lovrGpuBindUniformBuffer`, `lovrGpuSetViewport`, and the pipeline-toggle
blocks of `lovrGpuDraw`).  A depth-test change to `COMPARE_NONE` while
`depthEnabled` is already false updates the cache but issues nothing (the
`else if (state.depthEnabled)` arm fails), and likewise a stencil change to
`COMPARE_NONE` (including a value-only change under it) while
`stencilEnabled` is already false. -/
def apply (s : GpuState) : Update → GpuState × Nat
  | .useProgram p =>
    if s.program ≠ p then
      ({ s with program := p, shaderSwitches := s.shaderSwitches + 1 }, 1)
    else (s, 0)
  | .bindFramebuffer f =>
    if s.framebuffer ≠ f then ({ s with framebuffer := f }, 1) else (s, 0)
  | .bindIndexBuffer b =>
    if s.indexBuffer ≠ b then ({ s with indexBuffer := b }, 1) else (s, 0)
  | .bindVertexBuffer b =>
    if s.vertexBuffer ≠ b then ({ s with vertexBuffer := b }, 1) else (s, 0)
  | .bindVertexArray a =>
    if s.vertexArray ≠ a then ({ s with vertexArray := a }, 1) else (s, 0)
  | .bindUniformBuffer b slot =>
    if s.uniformBuffers slot ≠ b then
      ({ s with uniformBuffers := fun i => if i = slot then b else s.uniformBuffers i }, 1)
    else (s, 0)
  | .setViewport v =>
    if s.viewport ≠ v then ({ s with viewport := v }, 1) else (s, 0)
  | .setBlend bm bam =>
    if s.blendMode ≠ bm ∨ s.blendAlphaMode ≠ bam then
      ({ s with blendMode := bm, blendAlphaMode := bam }, 1)
    else (s, 0)
  | .setCulling c =>
    if s.culling ≠ c then ({ s with culling := c }, 1) else (s, 0)
  | .setDepthTest d =>
    if s.depthTest ≠ d then
      if d ≠ CompareMode.compareNone then
        ({ s with depthTest := d, depthEnabled := true }, 1)
      else if s.depthEnabled then
        ({ s with depthTest := d, depthEnabled := false }, 1)
      else
        ({ s with depthTest := d }, 0)
    else (s, 0)
  | .setDepthWrite w =>
    if s.depthWrite ≠ w then ({ s with depthWrite := w }, 1) else (s, 0)
  | .setLineWidth w =>
    if s.lineWidth ≠ w then ({ s with lineWidth := w }, 1) else (s, 0)
  | .setStencil m v =>
    if s.stencilWriting = false ∧ (s.stencilMode ≠ some m ∨ s.stencilValue ≠ v) then
      if m ≠ CompareMode.compareNone then
        ({ s with stencilMode := some m, stencilValue := v, stencilEnabled := true }, 1)
      else if s.stencilEnabled then
        ({ s with stencilMode := some m, stencilValue := v, stencilEnabled := false }, 1)
      else
        ({ s with stencilMode := some m, stencilValue := v }, 0)
    else (s, 0)
  | .setWinding w =>
    if s.winding ≠ w then ({ s with winding := w }, 1) else (s, 0)
  | .setWireframe w =>
    if s.wireframe ≠ w then ({ s with wireframe := w }, 1) else (s, 0)

/-- A sequence of updates, accumulating issued state-change operations. -/
def applyAll : GpuState → List Update → GpuState × Nat
  | s, [] => (s, 0)
  | s, u :: us =>
    ((applyAll (apply s u).1 us).1, (apply s u).2 + (applyAll (apply s u).1 us).2)

/-- Specification-side count of distinct consecutive value changes of a
request sequence, tracked over an abstract last-applied-value map. -/
def changes (f : Key → Uval) : List Update → Nat
  | [] => 0
  | u :: us =>
    (if f u.key = u.val then 0 else 1) + changes (fun k => if k = u.key then u.val else f k) us

/-- A concrete cache state for evaluating the theorems. -/
def gpuEx : GpuState where
  program := 0
  framebuffer := 0
  indexBuffer := 0
  vertexBuffer := 0
  vertexArray := 0
  uniformBuffers := fun _ => 0
  viewport := [0, 0, 0, 0]
  blendMode := .alpha
  blendAlphaMode := .alphaMultiply
  culling := false
  depthEnabled := false
  depthTest := .less
  depthWrite := true
  lineWidth := 1
  stencilEnabled := false
  stencilMode := some .compareNone
  stencilValue := 0
  stencilWriting := false
  winding := .counterclockwise
  wireframe := false
  shaderSwitches := 0

/-- A concrete update sequence with redundant sets. -/
def updatesEx : List Update :=
  [.useProgram 3, .useProgram 3, .setBlend .add .premultiplied,
   .setBlend .add .premultiplied, .bindFramebuffer 7, .bindFramebuffer 7,
   .setViewport [0, 0, 64, 64], .useProgram 3]

theorem apply_spec (s : GpuState) (u : Update) (hw : s.stencilWriting = false) :
    (apply s u).2 ≤ (if s.read u.key = u.val then 0 else 1) ∧
    (apply s u).1.read u.key = u.val ∧
    (∀ k, k ≠ u.key → (apply s u).1.read k = s.read k) ∧
    (apply s u).1.stencilWriting = false := by
  cases u with
  | useProgram p =>
    by_cases h : s.program = p
    · refine ⟨by simp [apply, GpuState.read, Update.key, Update.val, h], ?_, ?_, ?_⟩
      · simp [apply, GpuState.read, Update.key, Update.val, h]
      · intro k hk
        simp [apply, h]
      · simp [apply, h, hw]
    · refine ⟨by simp [apply, GpuState.read, Update.key, Update.val, h], ?_, ?_, ?_⟩
      · simp [apply, GpuState.read, Update.key, Update.val, h]
      · intro k hk
        cases k <;> simp_all [apply, GpuState.read, Update.key]
      · simp [apply, h, hw]
  | bindFramebuffer f =>
    by_cases h : s.framebuffer = f
    · refine ⟨by simp [apply, GpuState.read, Update.key, Update.val, h], ?_, ?_, ?_⟩
      · simp [apply, GpuState.read, Update.key, Update.val, h]
      · intro k hk
        simp [apply, h]
      · simp [apply, h, hw]
    · refine ⟨by simp [apply, GpuState.read, Update.key, Update.val, h], ?_, ?_, ?_⟩
      · simp [apply, GpuState.read, Update.key, Update.val, h]
      · intro k hk
        cases k <;> simp_all [apply, GpuState.read, Update.key]
      · simp [apply, h, hw]
  | bindIndexBuffer b =>
    by_cases h : s.indexBuffer = b
    · refine ⟨by simp [apply, GpuState.read, Update.key, Update.val, h], ?_, ?_, ?_⟩
      · simp [apply, GpuState.read, Update.key, Update.val, h]
      · intro k hk
        simp [apply, h]
      · simp [apply, h, hw]
    · refine ⟨by simp [apply, GpuState.read, Update.key, Update.val, h], ?_, ?_, ?_⟩
      · simp [apply, GpuState.read, Update.key, Update.val, h]
      · intro k hk
        cases k <;> simp_all [apply, GpuState.read, Update.key]
      · simp [apply, h, hw]
  | bindVertexBuffer b =>
    by_cases h : s.vertexBuffer = b
    · refine ⟨by simp [apply, GpuState.read, Update.key, Update.val, h], ?_, ?_, ?_⟩
      · simp [apply, GpuState.read, Update.key, Update.val, h]
      · intro k hk
        simp [apply, h]
      · simp [apply, h, hw]
    · refine ⟨by simp [apply, GpuState.read, Update.key, Update.val, h], ?_, ?_, ?_⟩
      · simp [apply, GpuState.read, Update.key, Update.val, h]
      · intro k hk
        cases k <;> simp_all [apply, GpuState.read, Update.key]
      · simp [apply, h, hw]
  | bindVertexArray a =>
    by_cases h : s.vertexArray = a
    · refine ⟨by simp [apply, GpuState.read, Update.key, Update.val, h], ?_, ?_, ?_⟩
      · simp [apply, GpuState.read, Update.key, Update.val, h]
      · intro k hk
        simp [apply, h]
      · simp [apply, h, hw]
    · refine ⟨by simp [apply, GpuState.read, Update.key, Update.val, h], ?_, ?_, ?_⟩
      · simp [apply, GpuState.read, Update.key, Update.val, h]
      · intro k hk
        cases k <;> simp_all [apply, GpuState.read, Update.key]
      · simp [apply, h, hw]
  | bindUniformBuffer b slot =>
    by_cases h : s.uniformBuffers slot = b
    · refine ⟨by simp [apply, GpuState.read, Update.key, Update.val, h], ?_, ?_, ?_⟩
      · simp [apply, GpuState.read, Update.key, Update.val, h]
      · intro k hk
        simp [apply, h]
      · simp [apply, h, hw]
    · refine ⟨by simp [apply, GpuState.read, Update.key, Update.val, h], ?_, ?_, ?_⟩
      · simp [apply, GpuState.read, Update.key, Update.val, h]
      · intro k hk
        cases k <;> simp_all [apply, GpuState.read, Update.key]
      · simp [apply, h, hw]
  | setViewport v =>
    by_cases h : s.viewport = v
    · refine ⟨by simp [apply, GpuState.read, Update.key, Update.val, h], ?_, ?_, ?_⟩
      · simp [apply, GpuState.read, Update.key, Update.val, h]
      · intro k hk
        simp [apply, h]
      · simp [apply, h, hw]
    · refine ⟨by simp [apply, GpuState.read, Update.key, Update.val, h], ?_, ?_, ?_⟩
      · simp [apply, GpuState.read, Update.key, Update.val, h]
      · intro k hk
        cases k <;> simp_all [apply, GpuState.read, Update.key]
      · simp [apply, h, hw]
  | setBlend bm bam =>
    by_cases h1 : s.blendMode = bm
    · by_cases h2 : s.blendAlphaMode = bam
      · refine ⟨by simp [apply, GpuState.read, Update.key, Update.val, h1, h2], ?_, ?_, ?_⟩
        · simp [apply, GpuState.read, Update.key, Update.val, h1, h2]
        · intro k hk
          simp [apply, h1, h2]
        · simp [apply, h1, h2, hw]
      · refine ⟨by simp [apply, GpuState.read, Update.key, Update.val, h1, h2], ?_, ?_, ?_⟩
        · simp [apply, GpuState.read, Update.key, Update.val, h1, h2]
        · intro k hk
          cases k <;> simp_all [apply, GpuState.read, Update.key]
        · simp [apply, h1, h2, hw]
    · refine ⟨by simp [apply, GpuState.read, Update.key, Update.val, h1], ?_, ?_, ?_⟩
      · simp [apply, GpuState.read, Update.key, Update.val, h1]
      · intro k hk
        cases k <;> simp_all [apply, GpuState.read, Update.key]
      · simp [apply, h1, hw]
  | setCulling c =>
    by_cases h : s.culling = c
    · refine ⟨by simp [apply, GpuState.read, Update.key, Update.val, h], ?_, ?_, ?_⟩
      · simp [apply, GpuState.read, Update.key, Update.val, h]
      · intro k hk
        simp [apply, h]
      · simp [apply, h, hw]
    · refine ⟨by simp [apply, GpuState.read, Update.key, Update.val, h], ?_, ?_, ?_⟩
      · simp [apply, GpuState.read, Update.key, Update.val, h]
      · intro k hk
        cases k <;> simp_all [apply, GpuState.read, Update.key]
      · simp [apply, h, hw]
  | setDepthTest d =>
    by_cases h : s.depthTest = d
    · refine ⟨by simp [apply, GpuState.read, Update.key, Update.val, h], ?_, ?_, ?_⟩
      · simp [apply, GpuState.read, Update.key, Update.val, h]
      · intro k hk
        simp [apply, h]
      · simp [apply, h, hw]
    · by_cases hd : d = CompareMode.compareNone
      · subst hd
        by_cases he : s.depthEnabled = true
        · refine ⟨by simp [apply, GpuState.read, Update.key, Update.val, h, he], ?_, ?_, ?_⟩
          · simp [apply, GpuState.read, Update.key, Update.val, h, he]
          · intro k hk
            cases k <;> simp_all [apply, GpuState.read, Update.key]
          · simp [apply, h, he, hw]
        · refine ⟨by simp [apply, GpuState.read, Update.key, Update.val, h, he], ?_, ?_, ?_⟩
          · simp [apply, GpuState.read, Update.key, Update.val, h, he]
          · intro k hk
            cases k <;> simp_all [apply, GpuState.read, Update.key]
          · simp [apply, h, he, hw]
      · refine ⟨by simp [apply, GpuState.read, Update.key, Update.val, h, hd], ?_, ?_, ?_⟩
        · simp [apply, GpuState.read, Update.key, Update.val, h, hd]
        · intro k hk
          cases k <;> simp_all [apply, GpuState.read, Update.key]
        · simp [apply, h, hd, hw]
  | setDepthWrite w =>
    by_cases h : s.depthWrite = w
    · refine ⟨by simp [apply, GpuState.read, Update.key, Update.val, h], ?_, ?_, ?_⟩
      · simp [apply, GpuState.read, Update.key, Update.val, h]
      · intro k hk
        simp [apply, h]
      · simp [apply, h, hw]
    · refine ⟨by simp [apply, GpuState.read, Update.key, Update.val, h], ?_, ?_, ?_⟩
      · simp [apply, GpuState.read, Update.key, Update.val, h]
      · intro k hk
        cases k <;> simp_all [apply, GpuState.read, Update.key]
      · simp [apply, h, hw]
  | setLineWidth w =>
    by_cases h : s.lineWidth = w
    · refine ⟨by simp [apply, GpuState.read, Update.key, Update.val, h], ?_, ?_, ?_⟩
      · simp [apply, GpuState.read, Update.key, Update.val, h]
      · intro k hk
        simp [apply, h]
      · simp [apply, h, hw]
    · refine ⟨by simp [apply, GpuState.read, Update.key, Update.val, h], ?_, ?_, ?_⟩
      · simp [apply, GpuState.read, Update.key, Update.val, h]
      · intro k hk
        cases k <;> simp_all [apply, GpuState.read, Update.key]
      · simp [apply, h, hw]
  | setStencil m v =>
    by_cases h1 : s.stencilMode = some m
    · by_cases h2 : s.stencilValue = v
      · refine ⟨by simp [apply, GpuState.read, Update.key, Update.val, h1, h2, hw], ?_, ?_, ?_⟩
        · simp [apply, GpuState.read, Update.key, Update.val, h1, h2, hw]
        · intro k hk
          simp [apply, h1, h2, hw]
        · simp [apply, h1, h2, hw]
      · by_cases hm : m = CompareMode.compareNone
        · subst hm
          by_cases he : s.stencilEnabled = true
          · refine ⟨by simp [apply, GpuState.read, Update.key, Update.val, h1, h2, he, hw],
              ?_, ?_, ?_⟩
            · simp [apply, GpuState.read, Update.key, Update.val, h1, h2, he, hw]
            · intro k hk
              cases k <;> simp_all [apply, GpuState.read, Update.key]
            · simp [apply, h1, h2, he, hw]
          · refine ⟨by simp [apply, GpuState.read, Update.key, Update.val, h1, h2, he, hw],
              ?_, ?_, ?_⟩
            · simp [apply, GpuState.read, Update.key, Update.val, h1, h2, he, hw]
            · intro k hk
              cases k <;> simp_all [apply, GpuState.read, Update.key]
            · simp [apply, h1, h2, he, hw]
        · refine ⟨by simp [apply, GpuState.read, Update.key, Update.val, h1, h2, hm, hw],
            ?_, ?_, ?_⟩
          · simp [apply, GpuState.read, Update.key, Update.val, h1, h2, hm, hw]
          · intro k hk
            cases k <;> simp_all [apply, GpuState.read, Update.key]
          · simp [apply, h1, h2, hm, hw]
    · by_cases hm : m = CompareMode.compareNone
      · subst hm
        by_cases he : s.stencilEnabled = true
        · refine ⟨by simp [apply, GpuState.read, Update.key, Update.val, h1, he, hw],
            ?_, ?_, ?_⟩
          · simp [apply, GpuState.read, Update.key, Update.val, h1, he, hw]
          · intro k hk
            cases k <;> simp_all [apply, GpuState.read, Update.key]
          · simp [apply, h1, he, hw]
        · refine ⟨by simp [apply, GpuState.read, Update.key, Update.val, h1, he, hw],
            ?_, ?_, ?_⟩
          · simp [apply, GpuState.read, Update.key, Update.val, h1, he, hw]
          · intro k hk
            cases k <;> simp_all [apply, GpuState.read, Update.key]
          · simp [apply, h1, he, hw]
      · refine ⟨by simp [apply, GpuState.read, Update.key, Update.val, h1, hm, hw],
          ?_, ?_, ?_⟩
        · simp [apply, GpuState.read, Update.key, Update.val, h1, hm, hw]
        · intro k hk
          cases k <;> simp_all [apply, GpuState.read, Update.key]
        · simp [apply, h1, hm, hw]
  | setWinding w =>
    by_cases h : s.winding = w
    · refine ⟨by simp [apply, GpuState.read, Update.key, Update.val, h], ?_, ?_, ?_⟩
      · simp [apply, GpuState.read, Update.key, Update.val, h]
      · intro k hk
        simp [apply, h]
      · simp [apply, h, hw]
    · refine ⟨by simp [apply, GpuState.read, Update.key, Update.val, h], ?_, ?_, ?_⟩
      · simp [apply, GpuState.read, Update.key, Update.val, h]
      · intro k hk
        cases k <;> simp_all [apply, GpuState.read, Update.key]
      · simp [apply, h, hw]
  | setWireframe w =>
    by_cases h : s.wireframe = w
    · refine ⟨by simp [apply, GpuState.read, Update.key, Update.val, h], ?_, ?_, ?_⟩
      · simp [apply, GpuState.read, Update.key, Update.val, h]
      · intro k hk
        simp [apply, h]
      · simp [apply, h, hw]
    · refine ⟨by simp [apply, GpuState.read, Update.key, Update.val, h], ?_, ?_, ?_⟩
      · simp [apply, GpuState.read, Update.key, Update.val, h]
      · intro k hk
        cases k <;> simp_all [apply, GpuState.read, Update.key]
      · simp [apply, h, hw]

theorem applyAll_le (us : List Update) :
    ∀ s : GpuState, s.stencilWriting = false →
      (applyAll s us).2 ≤ changes s.read us := by
  induction us with
  | nil =>
    intro s _
    simp [applyAll, changes]
  | cons u us ih =>
    intro s hw
    obtain ⟨h1, h2, h3, h4⟩ := apply_spec s u hw
    have hread : (apply s u).1.read = fun k => if k = u.key then u.val else s.read k := by
      funext k
      by_cases hk : k = u.key
      · subst hk
        simp [h2]
      · simp [hk, h3 k hk]
    show (apply s u).2 + (applyAll (apply s u).1 us).2 ≤ changes s.read (u :: us)
    have hrest := ih (apply s u).1 h4
    rw [hread] at hrest
    calc (apply s u).2 + (applyAll (apply s u).1 us).2
        ≤ (if s.read u.key = u.val then 0 else 1) +
            changes (fun k => if k = u.key then u.val else s.read k) us :=
          Nat.add_le_add h1 hrest
      _ = changes s.read (u :: us) := rfl

/-- C3 counterexample: "hardware calls = distinct consecutive value changes"
fails on the code.  From the state `lovrGpuInit` establishes (depth test
cached `COMPARE_LESS` with `GL_DEPTH_TEST` disabled), switching the depth
test to `COMPARE_NONE` is a distinct consecutive value change, yet the draw
code issues zero GL calls for it: the new mode is `COMPARE_NONE` and the
`else if (state.depthEnabled)` arm fails. -/
theorem stateCache_claim_cex :
    (applyAll gpuEx [.setDepthTest .compareNone]).2 = 0 ∧
    changes gpuEx.read [.setDepthTest .compareNone] = 1 ∧
    (applyAll gpuEx [.setDepthTest .compareNone]).2 ≠
      changes gpuEx.read [.setDepthTest .compareNone] := by
  decide

/-- C3 (amended): over any sequence of state-cache updates the number of
issued hardware state-change operations is at most the number of distinct
consecutive value changes; a redundant set (value equal to the cached one)
is always free and leaves the cache untouched; every update other than the
depth-test and stencil toggles issues exactly one operation per distinct
consecutive change; a changed depth test issues one operation unless the new
mode is `COMPARE_NONE` while the depth test is already disabled (then none),
and likewise a changed stencil setting with new mode `COMPARE_NONE` while
the stencil test is already disabled; in particular re-applying the same
blend mode immediately issues zero operations and leaves the cache
untouched.  (Stated outside `lovrGraphicsStencil`'s write callback, i.e.
with `stencilWriting` false, as during normal draws.) -/
theorem stateCache_calls_amended (s : GpuState) (us : List Update) (u : Update)
    (d m : CompareMode) (v : Int) (bm : BlendMode) (bam : BlendAlphaMode)
    (hw : s.stencilWriting = false) :
    ((applyAll s us).2 ≤ changes s.read us) ∧
    (s.read u.key = u.val → apply s u = (s, 0)) ∧
    (u.key ≠ .depthTest → u.key ≠ .stencil →
      (apply s u).2 = if s.read u.key = u.val then 0 else 1) ∧
    ((apply s (.setDepthTest d)).2 =
      if s.depthTest = d then 0
      else if d = CompareMode.compareNone ∧ s.depthEnabled = false then 0 else 1) ∧
    ((apply s (.setStencil m v)).2 =
      if s.stencilMode = some m ∧ s.stencilValue = v then 0
      else if m = CompareMode.compareNone ∧ s.stencilEnabled = false then 0 else 1) ∧
    (apply (apply s (.setBlend bm bam)).1 (.setBlend bm bam) =
      ((apply s (.setBlend bm bam)).1, 0)) := by
  refine ⟨applyAll_le us s hw, ?_, ?_, ?_, ?_, ?_⟩
  · intro hval
    cases u <;> simp_all [apply, GpuState.read, Update.key, Update.val]
  · intro hk1 hk2
    cases u with
    | setDepthTest d' => exact absurd rfl hk1
    | setStencil m' v' => exact absurd rfl hk2
    | useProgram p =>
      by_cases h : s.program = p <;> simp [apply, GpuState.read, Update.key, Update.val, h]
    | bindFramebuffer f =>
      by_cases h : s.framebuffer = f <;>
        simp [apply, GpuState.read, Update.key, Update.val, h]
    | bindIndexBuffer b =>
      by_cases h : s.indexBuffer = b <;>
        simp [apply, GpuState.read, Update.key, Update.val, h]
    | bindVertexBuffer b =>
      by_cases h : s.vertexBuffer = b <;>
        simp [apply, GpuState.read, Update.key, Update.val, h]
    | bindVertexArray a =>
      by_cases h : s.vertexArray = a <;>
        simp [apply, GpuState.read, Update.key, Update.val, h]
    | bindUniformBuffer b slot =>
      by_cases h : s.uniformBuffers slot = b <;>
        simp [apply, GpuState.read, Update.key, Update.val, h]
    | setViewport vp =>
      by_cases h : s.viewport = vp <;>
        simp [apply, GpuState.read, Update.key, Update.val, h]
    | setBlend bm' bam' =>
      by_cases h1 : s.blendMode = bm'
      · by_cases h2 : s.blendAlphaMode = bam' <;>
          simp [apply, GpuState.read, Update.key, Update.val, h1, h2]
      · simp [apply, GpuState.read, Update.key, Update.val, h1]
    | setCulling c =>
      by_cases h : s.culling = c <;> simp [apply, GpuState.read, Update.key, Update.val, h]
    | setDepthWrite w =>
      by_cases h : s.depthWrite = w <;>
        simp [apply, GpuState.read, Update.key, Update.val, h]
    | setLineWidth w =>
      by_cases h : s.lineWidth = w <;>
        simp [apply, GpuState.read, Update.key, Update.val, h]
    | setWinding w =>
      by_cases h : s.winding = w <;> simp [apply, GpuState.read, Update.key, Update.val, h]
    | setWireframe w =>
      by_cases h : s.wireframe = w <;>
        simp [apply, GpuState.read, Update.key, Update.val, h]
  · by_cases h : s.depthTest = d
    · simp [apply, h]
    · by_cases hd : d = CompareMode.compareNone
      · subst hd
        by_cases he : s.depthEnabled = true
        · simp [apply, h, he]
        · simp [apply, h, he]
      · simp [apply, h, hd]
  · by_cases h1 : s.stencilMode = some m
    · by_cases h2 : s.stencilValue = v
      · simp [apply, h1, h2, hw]
      · by_cases hm : m = CompareMode.compareNone
        · subst hm
          by_cases he : s.stencilEnabled = true
          · simp [apply, h1, h2, he, hw]
          · simp [apply, h1, h2, he, hw]
        · simp [apply, h1, h2, hm, hw]
    · by_cases hm : m = CompareMode.compareNone
      · subst hm
        by_cases he : s.stencilEnabled = true
        · simp [apply, h1, he, hw]
        · simp [apply, h1, he, hw]
      · simp [apply, h1, hm, hw]
  · by_cases h : s.blendMode ≠ bm ∨ s.blendAlphaMode ≠ bam
    · simp [apply, h]
    · simp [apply, h]

/-- Witness for the amended C3 on concrete inputs: the redundant-heavy
sequence issues no more operations than it has distinct consecutive changes,
the disabled-to-`COMPARE_NONE` depth change issues zero operations, a real
stencil change issues one, and a repeated blend set is free. -/
theorem stateCache_calls_amended_witness :
    ((applyAll gpuEx updatesEx).2 ≤ changes gpuEx.read updatesEx) ∧
    (apply gpuEx (.setDepthTest .compareNone)).2 = 0 ∧
    (apply gpuEx (.setStencil .equal 1)).2 = 1 ∧
    apply (apply gpuEx (.setBlend .add .premultiplied)).1 (.setBlend .add .premultiplied) =
      ((apply gpuEx (.setBlend .add .premultiplied)).1, 0) := by
  have h := stateCache_calls_amended gpuEx updatesEx (.useProgram 0) .compareNone .equal 1
    .add .premultiplied rfl
  refine ⟨h.1, ?_, ?_, h.2.2.2.2.2⟩
  · rw [h.2.2.2.1]
    decide
  · rw [h.2.2.2.2.1]
    decide

end GpuCache

/-! ## Shared integer base-2 logarithm

`log2floor n` is `floor(log2 n)` (for `n ≥ 1`), written with structural fuel
recursion so that the kernel can evaluate it on concrete inputs.  It embeds
the C `(int) log2((double) n)` used by the texture code: for `n < 2^32` the
double computation is exact enough that truncation yields the mathematical
floor. -/

/-- Fuel-driven floor base-2 logarithm. -/
def log2Aux : Nat → Nat → Nat
  | 0, _ => 0
  | fuel + 1, n => if 2 ≤ n then log2Aux fuel (n / 2) + 1 else 0

/-- `floor(log2 n)` for `n ≥ 1` (and `0` at `0`). -/
def log2floor (n : Nat) : Nat := log2Aux n n

theorem log2Aux_bounds :
    ∀ fuel n, 1 ≤ n → n ≤ fuel →
      2 ^ log2Aux fuel n ≤ n ∧ n < 2 ^ (log2Aux fuel n + 1) := by
  intro fuel
  induction fuel with
  | zero =>
    intro n h1 h2
    omega
  | succ fuel ih =>
    intro n h1 h2
    show (2 ^ (if 2 ≤ n then log2Aux fuel (n / 2) + 1 else 0) ≤ n ∧
      n < 2 ^ ((if 2 ≤ n then log2Aux fuel (n / 2) + 1 else 0) + 1))
    by_cases hn : 2 ≤ n
    · rw [if_pos hn]
      have hhalf1 : 1 ≤ n / 2 := by omega
      have hhalf2 : n / 2 ≤ fuel := by omega
      obtain ⟨ha, hb⟩ := ih (n / 2) hhalf1 hhalf2
      constructor
      · rw [pow_succ]
        have := Nat.mul_le_mul_right 2 ha
        omega
      · rw [pow_succ]
        omega
    · rw [if_neg hn]
      constructor
      · simpa using h1
      · simpa using by omega

theorem log2floor_bounds (n : Nat) (h : 1 ≤ n) :
    2 ^ log2floor n ≤ n ∧ n < 2 ^ (log2floor n + 1) :=
  log2Aux_bounds n n h le_rfl

/-! ## Mesh growth (`lovrMeshResize`)

Embeds the GL backend's mesh vertex store: `mesh->count` (the vertex
capacity), the format stride, the CPU byte mirror `mesh->data`, and the GPU
vertex buffer contents/size re-created by `glBufferData`.  Byte stores are
lists of byte values; `realloc` preserves the old bytes and the fresh tail is
unspecified (zeros here). -/

namespace GLMesh

/-- Modelled from the spec: `nextPo2` (declared in `core/util`, whose
implementation is not among the provided sources) rounds up to the next
power of two `≥ n` (identity below 2). -/
def nextPo2 (n : Nat) : Nat :=
  if n ≤ 1 then n else 2 ^ (log2floor (n - 1) + 1)

/-- The mesh fields touched by `lovrMeshResize`. -/
structure MeshV where
  count : Nat
  stride : Nat
  data : List Nat
  vboSize : Nat
  vbo : List Nat
deriving DecidableEq, Repr

/-- `realloc(ptr, newSize)`: keep the first `min oldSize newSize` bytes. -/
def realloc (bytes : List Nat) (newSize : Nat) : List Nat :=
  bytes.take newSize ++ List.replicate (newSize - bytes.length) 0

/-- `lovrMeshResize`: grow only when the requested count exceeds the current
one; record `nextPo2(count)` as the new capacity, reallocate the CPU mirror
to `count * stride` bytes and re-upload it with `glBufferData`. -/
def lovrMeshResize (m : MeshV) (count : Nat) : MeshV :=
  if m.count < count then
    { m with
      count := nextPo2 count
      data := realloc m.data (count * m.stride)
      vboSize := count * m.stride
      vbo := realloc m.data (count * m.stride) }
  else m

/-- A two-vertex mesh with one byte per vertex. -/
def meshEx : MeshV := ⟨2, 1, [7, 9], 2, [7, 9]⟩

theorem nextPo2_ge (n : Nat) : n ≤ nextPo2 n := by
  unfold nextPo2
  by_cases h : n ≤ 1
  · rw [if_pos h]
  · rw [if_neg h]
    have h2 : 1 ≤ n - 1 := by omega
    have hb := (log2floor_bounds (n - 1) h2).2
    omega

theorem nextPo2_pow (n : Nat) (h : 1 ≤ n) : ∃ k, nextPo2 n = 2 ^ k := by
  unfold nextPo2
  by_cases h1 : n ≤ 1
  · rw [if_pos h1]
    exact ⟨0, by omega⟩
  · rw [if_neg h1]
    exact ⟨_, rfl⟩

theorem nextPo2_min (n j : Nat) (h : n ≤ 2 ^ j) : nextPo2 n ≤ 2 ^ j := by
  unfold nextPo2
  by_cases h1 : n ≤ 1
  · rw [if_pos h1]
    have := Nat.one_le_two_pow (n := j)
    omega
  · rw [if_neg h1]
    have h2 : 1 ≤ n - 1 := by omega
    have hlow := (log2floor_bounds (n - 1) h2).1
    have hlt : 2 ^ log2floor (n - 1) < 2 ^ j := by omega
    have hLj : log2floor (n - 1) < j := (Nat.pow_lt_pow_iff_right (by norm_num)).mp hlt
    exact Nat.pow_le_pow_right (by norm_num) (by omega)

theorem realloc_preserves (bytes : List Nat) (newSize : Nat) (h : bytes.length ≤ newSize) :
    ∀ i, i < bytes.length → (realloc bytes newSize)[i]? = bytes[i]? := by
  intro i hi
  unfold realloc
  rw [List.take_of_length_le h, List.getElem?_append, if_pos hi]

/-- C6: a resize within the current capacity changes neither the CPU store
nor the GPU buffer; growing past it sets the capacity to the next power of
two `≥ n` (a power of two, at least `n`, and no larger than any power of two
`≥ n`) and preserves every existing vertex byte in both the reallocated CPU
store and the re-uploaded GPU buffer. -/
theorem lovrMeshResize_spec (m : MeshV) (n : Nat) (hlen : m.data.length = m.count * m.stride) :
    (n ≤ m.count → lovrMeshResize m n = m) ∧
    (m.count < n →
      (lovrMeshResize m n).count = nextPo2 n ∧
      n ≤ (lovrMeshResize m n).count ∧
      (∃ k, (lovrMeshResize m n).count = 2 ^ k) ∧
      (∀ j, n ≤ 2 ^ j → (lovrMeshResize m n).count ≤ 2 ^ j) ∧
      (∀ i, i < m.count * m.stride → (lovrMeshResize m n).data[i]? = m.data[i]?) ∧
      (∀ i, i < m.count * m.stride → (lovrMeshResize m n).vbo[i]? = m.data[i]?)) := by
  constructor
  · intro h
    unfold lovrMeshResize
    rw [if_neg (Nat.not_lt.mpr h)]
  · intro h
    have heq : lovrMeshResize m n =
        { m with
          count := nextPo2 n
          data := realloc m.data (n * m.stride)
          vboSize := n * m.stride
          vbo := realloc m.data (n * m.stride) } := by
      unfold lovrMeshResize
      rw [if_pos h]
    have hle : m.data.length ≤ n * m.stride := by
      rw [hlen]
      exact Nat.mul_le_mul_right m.stride (Nat.le_of_lt h)
    refine ⟨by rw [heq], ?_, ?_, ?_, ?_, ?_⟩
    · rw [heq]
      exact nextPo2_ge n
    · rw [heq]
      exact nextPo2_pow n (by omega)
    · intro j hj
      rw [heq]
      exact nextPo2_min n j hj
    · intro i hi
      rw [heq]
      exact realloc_preserves m.data (n * m.stride) hle i (by omega)
    · intro i hi
      rw [heq]
      exact realloc_preserves m.data (n * m.stride) hle i (by omega)

/-- Witness for C6 on the concrete two-vertex mesh: resizing to 2 is a
no-op; resizing to 3 yields capacity 4 (the power of two between 3 and 4)
and preserves both stored bytes. -/
theorem lovrMeshResize_spec_witness :
    lovrMeshResize meshEx 2 = meshEx ∧
    (lovrMeshResize meshEx 3).count = 4 ∧
    (lovrMeshResize meshEx 3).data[1]? = meshEx.data[1]? ∧
    (lovrMeshResize meshEx 3).vbo[0]? = meshEx.data[0]? := by
  have h := lovrMeshResize_spec meshEx 3 (by decide)
  have h2 := h.2 (by decide)
  refine ⟨(lovrMeshResize_spec meshEx 2 (by decide)).1 (by decide), ?_, ?_, ?_⟩
  · have hge := h2.2.1
    have hmin := h2.2.2.2.1 2 (by decide)
    obtain ⟨k, hk⟩ := h2.2.2.1
    have hk2 : k = 2 := by
      rcases Nat.lt_trichotomy k 2 with hlt | heq | hgt
      · interval_cases k <;> omega
      · exact heq
      · have : 2 ^ 3 ≤ 2 ^ k := Nat.pow_le_pow_right (by norm_num) (by omega)
        omega
    rw [hk, hk2]
    norm_num
  · exact h2.2.2.2.2.1 1 (by decide)
  · exact h2.2.2.2.2.2 0 (by decide)

end GLMesh

/-! ## Shader block packing (`lovrShaderBlockCreate`)

Embeds the offset-assignment loop of `lovrShaderBlockCreate`: offsets are
accumulated over the ordered uniform list, each uniform contributing
`components² × 4` bytes when it is a matrix (independently of its array
count), `4` bytes when it is a non-matrix with count 1, and `count × 16`
bytes otherwise; the backing buffer is allocated with the final offset as
its size.  The block copies the caller's uniform array before the offsets
are written, and the offsets land in the caller's array. -/

namespace GLBlock

/-- One uniform of a shader block (the fields the packing loop reads). -/
structure BUniform where
  type : GLShader.UniformType
  count : Nat
  components : Nat
  offset : Nat
deriving DecidableEq, Repr

/-- The loop body's contribution for one uniform. -/
def uniformPackedSize (u : BUniform) : Nat :=
  if u.type ≠ .matrix then (if u.count = 1 then 4 else u.count * 16)
  else u.components * u.components * 4

/-- The offset-assignment loop starting from a running offset. -/
def assignOffsets : Nat → List BUniform → List BUniform
  | _, [] => []
  | off, u :: rest => { u with offset := off } :: assignOffsets (off + uniformPackedSize u) rest

/-- The final running offset (`totalSize`). -/
def packedTotal : List BUniform → Nat
  | [] => 0
  | u :: rest => uniformPackedSize u + packedTotal rest

/-- The created block: the pre-offset copy of the uniforms and the
`glBufferData` allocation size. -/
structure ShaderBlockV where
  uniforms : List BUniform
  bufferSize : Nat
deriving DecidableEq, Repr

/-- `lovrShaderBlockCreate`: returns the block (its uniform copy taken
before the offsets were computed, its buffer sized to the packed total) and
the caller's uniform array with the computed offsets. -/
def lovrShaderBlockCreate (us : List BUniform) : ShaderBlockV × List BUniform :=
  (⟨us, packedTotal us⟩, assignOffsets 0 us)

/-- The packing rule as the claim states it: a matrix uniform occupies
`components² × 4` bytes per element; any non-matrix uniform (scalar, vector
or array) is padded to 16-byte slots, 16 bytes per element. -/
def claimUniformSize (u : BUniform) : Nat :=
  if u.type = .matrix then u.count * (u.components * u.components * 4) else u.count * 16

/-- Packed total under the claim's rule. -/
def claimPackedTotal : List BUniform → Nat
  | [] => 0
  | u :: rest => claimUniformSize u + claimPackedTotal rest

/-- A single float scalar uniform (count 1). -/
def scalarEx : BUniform := ⟨.float, 1, 1, 0⟩

/-- A two-element mat4 array uniform. -/
def matArrayEx : BUniform := ⟨.matrix, 2, 4, 0⟩

/-- A concrete block layout: a float scalar followed by a mat3. -/
def blockEx : List BUniform := [⟨.float, 1, 1, 0⟩, ⟨.matrix, 1, 3, 0⟩]

theorem assignOffsets_get :
    ∀ (us : List BUniform) (off i : Nat),
      (assignOffsets off us)[i]? =
        (us[i]?).map (fun u => { u with offset := off + packedTotal (us.take i) }) := by
  intro us
  induction us with
  | nil =>
    intro off i
    simp [assignOffsets]
  | cons u rest ih =>
    intro off i
    cases i with
    | zero =>
      simp [assignOffsets, packedTotal]
    | succ i =>
      simp only [assignOffsets, List.getElem?_cons_succ, List.take_succ_cons, packedTotal, ih]
      congr 1
      funext v
      simp [Nat.add_assoc]

/-- C7 counterexample: on a block holding one float scalar of count 1 the
code allocates a 4-byte buffer, not the 16-byte slot the claim's padding
rule demands; a mat4 array of two elements gets 64 bytes, not the claimed
per-element 128. -/
theorem lovrShaderBlockCreate_claim_cex :
    (lovrShaderBlockCreate [scalarEx]).1.bufferSize = 4 ∧
    claimPackedTotal [scalarEx] = 16 ∧
    (lovrShaderBlockCreate [scalarEx]).1.bufferSize ≠ claimPackedTotal [scalarEx] ∧
    (lovrShaderBlockCreate [matArrayEx]).1.bufferSize = 64 ∧
    claimPackedTotal [matArrayEx] = 128 := by
  decide

/-- C7 (amended): each uniform's assigned offset is the packed total of the
uniforms before it, the backing buffer is sized to the packed total of all
of them, and each uniform contributes `components² × 4` bytes if a matrix
(regardless of element count), `4` bytes if a non-matrix of count 1, and
`count × 16` bytes for a non-matrix array. -/
theorem lovrShaderBlockCreate_packing (us : List BUniform) :
    ((lovrShaderBlockCreate us).1.bufferSize = packedTotal us) ∧
    (∀ i, i < us.length →
      ((lovrShaderBlockCreate us).2)[i]? =
        (us[i]?).map (fun u => { u with offset := packedTotal (us.take i) })) ∧
    (∀ u : BUniform, u.type = .matrix →
      uniformPackedSize u = u.components * u.components * 4) ∧
    (∀ u : BUniform, u.type ≠ .matrix → u.count = 1 → uniformPackedSize u = 4) ∧
    (∀ u : BUniform, u.type ≠ .matrix → u.count ≠ 1 →
      uniformPackedSize u = u.count * 16) := by
  refine ⟨rfl, ?_, ?_, ?_, ?_⟩
  · intro i _
    show (assignOffsets 0 us)[i]? = _
    rw [assignOffsets_get us 0 i]
    simp
  · intro u hm
    simp [uniformPackedSize, hm]
  · intro u hm hc
    simp [uniformPackedSize, hm, hc]
  · intro u hm hc
    simp [uniformPackedSize, hm, hc]

/-- Witness for the amended C7 on the concrete float+mat3 block: the scalar
sits at offset 0, the matrix at offset 4, and the buffer is 40 bytes. -/
theorem lovrShaderBlockCreate_packing_witness :
    ((lovrShaderBlockCreate blockEx).2)[1]? =
      (blockEx[1]?).map (fun u => { u with offset := packedTotal (blockEx.take 1) }) ∧
    (lovrShaderBlockCreate blockEx).1.bufferSize = packedTotal blockEx ∧
    packedTotal blockEx = 40 :=
  ⟨(lovrShaderBlockCreate_packing blockEx).2.1 1 (by decide),
   (lovrShaderBlockCreate_packing blockEx).1,
   by decide⟩

end GLBlock

/-! ## Texture mipmap count (`lovrTextureAllocate`, `lovrTextureCreate`)

Embeds the automatic mipmap computation of both backends.  The GL backend's
`lovrTextureAllocate` takes the maximum of width and height, adding depth
only for volume textures; the gpu backend's `lovrTextureCreate`
(`info->mipmaps == ~0u`, modelled as `none`) always folds `size[2]` into the
maximum.  `(int) (log2(dim) + 1)` is embedded as `log2floor dim + 1`. -/

namespace TexMip

/-- `TextureType`. -/
inductive TextureTypeG
  | t2d
  | cube
  | array
  | volume
deriving DecidableEq, Repr

/-- Mipmap count chosen by the GL backend's `lovrTextureAllocate` when the
texture was created with (auto) mipmaps on, else 1. -/
def lovrTextureAllocateMipmapCount (ty : TextureTypeG) (w h d : Nat) (mip : Bool) : Nat :=
  if mip then
    log2floor (if ty = .volume then max (max w h) d else max w h) + 1
  else 1

/-- Mipmap count chosen by the gpu backend's `lovrTextureCreate`:
`~0u` (here `none`) requests the automatic count from all three extents. -/
def lovrTextureCreateMipmaps (mipmaps : Option Nat) (w h d : Nat) : Nat :=
  match mipmaps with
  | none => log2floor (max (max w h) d) + 1
  | some m => m

/-- The mipmap count as the claim states it: `floor(log2(max dimension)) + 1`
with depth included only for volume textures. -/
def claimMipmapCount (ty : TextureTypeG) (w h d : Nat) : Nat :=
  log2floor (if ty = .volume then max (max w h) d else max w h) + 1

/-- C8 counterexample: an array texture of extent (4,4,64) created through
`lovrTextureCreate` with automatic mipmaps gets 7 levels, because `size[2]`
always enters the maximum there, while the claim's formula (depth only for
volume) gives 3. -/
theorem textureMipmaps_claim_cex :
    lovrTextureCreateMipmaps none 4 4 64 = 7 ∧
    claimMipmapCount .array 4 4 64 = 3 ∧
    lovrTextureCreateMipmaps none 4 4 64 ≠ claimMipmapCount .array 4 4 64 := by
  decide

/-- C8 (amended): the GL backend's automatic count matches the claim's
formula exactly; the gpu backend's automatic count always folds `size[2]`
into the maximum, agreeing with the claim's formula whenever the texture is
a volume or its depth does not exceed `max(width, height)`; a 4×4 2D texture
gets 3 levels on both paths. -/
theorem textureMipmaps_amended :
    (∀ ty w h d, lovrTextureAllocateMipmapCount ty w h d true = claimMipmapCount ty w h d) ∧
    (∀ w h d, lovrTextureCreateMipmaps none w h d = log2floor (max (max w h) d) + 1) ∧
    (∀ ty w h d, (ty = .volume ∨ d ≤ max w h) →
      lovrTextureCreateMipmaps none w h d = claimMipmapCount ty w h d) ∧
    lovrTextureAllocateMipmapCount .t2d 4 4 1 true = 3 ∧
    lovrTextureCreateMipmaps none 4 4 1 = 3 := by
  refine ⟨?_, ?_, ?_, by decide, by decide⟩
  · intro ty w h d
    simp [lovrTextureAllocateMipmapCount, claimMipmapCount]
  · intro w h d
    rfl
  · intro ty w h d hd
    rcases hd with hvol | hle
    · simp [lovrTextureCreateMipmaps, claimMipmapCount, hvol]
    · have hmax : max (max w h) d = max w h := max_eq_left hle
      by_cases hv : ty = .volume
      · simp [lovrTextureCreateMipmaps, claimMipmapCount, hv, hmax]
      · simp [lovrTextureCreateMipmaps, claimMipmapCount, hv, hmax]

/-- Witness for the amended C8: an 8×4 array texture with 2 layers agrees
across the two backends and the claim formula. -/
theorem textureMipmaps_amended_witness :
    lovrTextureCreateMipmaps none 8 4 2 = claimMipmapCount .array 8 4 2 :=
  textureMipmaps_amended.2.2.1 .array 8 4 2 (Or.inr (by decide))

end TexMip

/-! ## Texture view ownership (`lovrTextureCreateView`, `lovrTextureDestroy`)

Embeds the reference ownership between one source texture and one view of
it.  `lovrTextureCreateView` retains the source; `lovrTextureDestroy` on the
view frees the view's GPU object and releases that one source reference.
`lovrRetain`/`lovrRelease` live in `core/util`, which is not among the
provided sources; they are modelled from the spec as increment and
decrement-running-the-destructor-at-zero. -/

namespace TexView

/-- Reference state of a source texture and (at most) one view of it. -/
structure TexturePair where
  sourceRefcount : Nat
  sourceAlive : Bool
  viewRefcount : Nat
  viewAlive : Bool
deriving DecidableEq, Repr

/-- `lovrTextureDestroy` on the source (no `view.source` of its own): free
its GPU storage. -/
def destroySource (w : TexturePair) : TexturePair :=
  { w with sourceAlive := false }

/-- Modelled from the spec: `lovrRelease` on the source texture — decrement
its count; at zero run `lovrTextureDestroy`. -/
def lovrReleaseSource (w : TexturePair) : TexturePair :=
  if w.sourceRefcount - 1 = 0 then destroySource { w with sourceRefcount := 0 }
  else { w with sourceRefcount := w.sourceRefcount - 1 }

/-- `lovrTextureCreateView`: allocate the view (one reference, live GPU view
object) and `lovrRetain(view->source)`. -/
def lovrTextureCreateView (w : TexturePair) : TexturePair :=
  { w with viewRefcount := 1, viewAlive := true, sourceRefcount := w.sourceRefcount + 1 }

/-- `lovrTextureDestroy` on the view: `gpu_texture_destroy` of the view's
own object, then release the reference it holds on `info.view.source`. -/
def lovrTextureDestroyView (w : TexturePair) : TexturePair :=
  lovrReleaseSource { w with viewAlive := false }

/-- Modelled from the spec: `lovrRelease` on the view — decrement its count;
at zero run the view's destructor. -/
def lovrReleaseView (w : TexturePair) : TexturePair :=
  if w.viewRefcount - 1 = 0 then lovrTextureDestroyView { w with viewRefcount := 0 }
  else { w with viewRefcount := w.viewRefcount - 1 }

/-- A source texture held by one user reference, with no view yet. -/
def pairEx : TexturePair := ⟨1, true, 0, false⟩

/-- C9: creating a view increments the source's reference count by exactly
one (leaving its storage untouched); destroying the view (releasing its last
reference) releases exactly that one source reference and, as long as
another reference remains, the source's GPU storage survives; and while the
view holds its reference (so the count is at least two counting another
holder), releasing a user reference on the source cannot destroy it. -/
theorem textureView_refcount (w : TexturePair) :
    ((lovrTextureCreateView w).sourceRefcount = w.sourceRefcount + 1 ∧
     (lovrTextureCreateView w).sourceAlive = w.sourceAlive) ∧
    (w.viewRefcount = 1 → 2 ≤ w.sourceRefcount → w.sourceAlive = true →
      (lovrReleaseView w).viewAlive = false ∧
      (lovrReleaseView w).sourceRefcount = w.sourceRefcount - 1 ∧
      (lovrReleaseView w).sourceAlive = true) ∧
    (2 ≤ w.sourceRefcount → w.sourceAlive = true →
      (lovrReleaseSource w).sourceAlive = true ∧
      1 ≤ (lovrReleaseSource w).sourceRefcount) := by
  refine ⟨⟨rfl, rfl⟩, ?_, ?_⟩
  · intro h1 h2 h3
    have hv : w.viewRefcount - 1 = 0 := by omega
    unfold lovrReleaseView
    rw [if_pos hv]
    unfold lovrTextureDestroyView lovrReleaseSource
    rw [if_neg (show ¬(w.sourceRefcount - 1 = 0) by omega)]
    exact ⟨rfl, rfl, h3⟩
  · intro h2 h3
    unfold lovrReleaseSource
    rw [if_neg (show ¬(w.sourceRefcount - 1 = 0) by omega)]
    refine ⟨h3, ?_⟩
    show 1 ≤ w.sourceRefcount - 1
    omega

/-- Witness for C9: starting from one user reference, creating a view makes
two references; destroying the view brings it back to one with the source
storage intact, and releasing a user reference while the view is alive also
leaves the source alive. -/
theorem textureView_refcount_witness :
    (lovrTextureCreateView pairEx).sourceRefcount = pairEx.sourceRefcount + 1 ∧
    (lovrReleaseView (lovrTextureCreateView pairEx)).viewAlive = false ∧
    (lovrReleaseView (lovrTextureCreateView pairEx)).sourceAlive = true ∧
    (lovrReleaseSource (lovrTextureCreateView pairEx)).sourceAlive = true :=
  ⟨(textureView_refcount pairEx).1.1,
   ((textureView_refcount (lovrTextureCreateView pairEx)).2.1
     (by decide) (by decide) (by decide)).1,
   ((textureView_refcount (lovrTextureCreateView pairEx)).2.1
     (by decide) (by decide) (by decide)).2.2,
   ((textureView_refcount (lovrTextureCreateView pairEx)).2.2
     (by decide) (by decide)).1⟩

end TexView
